import Mathlib

/-!
# POSIX timers with a helper thread per timer, and `dliopen`

A shallow embedding of

* `sysdeps/unix/sysv/linux/timer_create.c`: `timer_helper_thread_cleanup`,
  `timer_helper_thread`, `timer_create_sigev_thread`, `___timer_create`;
* `sysdeps/pthread/tst-cancel31.c`: the callback `thread_handler` and its handler `cl`;
* `dlfcn/dliopen.c`: `__dliopen`.

The creating thread is a function on an explicit process state that records, in program
order, every call it makes.  The helper thread is a transition function driven by the
events of its environment (the barrier opening, `__sigwaitinfo` returning, a store to its
state word by another thread, the callback registering a handler or returning, a
cancellation request being acted upon).
-/

namespace TimerCreate

/-! ## The C type `int` -/

/-- The constant `INT_MAX` of `<limits.h>` for a 32 bit `int`. -/
def INT_MAX : Int := 2147483647

/-- The constant `INT_MIN` of `<limits.h>` for a 32 bit `int`. -/
def INT_MIN : Int := -2147483648

/-- The 32 bit two's complement pattern of an `int`. -/
def toBits (x : Int) : Nat := (x % 4294967296).toNat

/-- The `int` denoted by a 32 bit two's complement pattern. -/
def ofBits (n : Nat) : Int := if n < 2147483648 then (n : Int) else (n : Int) - 4294967296

/-- The C operator `&` on two `int`s. -/
def int_and (a b : Int) : Int := ofBits (toBits a &&& toBits b)

/-- The C operator `|` on two `int`s. -/
def int_or (a b : Int) : Int := ofBits (toBits a ||| toBits b)

/-! ## What the headers outside the source tree provide -/

/-- The constants and the two handle encoders that `timer_create.c` takes from headers
that are not part of the source tree (`<signal.h>`, `<time.h>`, `<errno.h>`,
`kernel-posix-timers.h`, `kernel-posix-cpu-timers.h`).  They are parameters of the
embedding.  The case labels of the `switch` in `___timer_create` are pairwise distinct
(C rejects duplicate labels), and so are the two CPU-time clock ids. -/
structure Abi where
  SIGEV_SIGNAL : Int
  SIGEV_NONE : Int
  SIGEV_THREAD : Int
  SIGEV_THREAD_ID : Int
  CLOCK_PROCESS_CPUTIME_ID : Int
  CLOCK_THREAD_CPUTIME_ID : Int
  PROCESS_CLOCK : Int
  THREAD_CLOCK : Int
  SIGTIMER : Int
  SIGALRM : Int
  SI_TIMER : Int
  EINVAL : Int
  kernel_timer_to_timerid : Int → Int
  pthread_to_timerid : Nat → Int
  thread_ne_none : SIGEV_THREAD ≠ SIGEV_NONE
  thread_ne_signal : SIGEV_THREAD ≠ SIGEV_SIGNAL
  thread_ne_thread_id : SIGEV_THREAD ≠ SIGEV_THREAD_ID
  clocks_ne : CLOCK_PROCESS_CPUTIME_ID ≠ CLOCK_THREAD_CPUTIME_ID

/-- The values of the constants on Linux, with the handle encoders of
`kernel-posix-timers.h`: a kernel id is used as the handle itself, a thread is encoded
as `INTPTR_MIN | (uintptr_t) th >> 1`. -/
def linux : Abi where
  SIGEV_SIGNAL := 0
  SIGEV_NONE := 1
  SIGEV_THREAD := 2
  SIGEV_THREAD_ID := 4
  CLOCK_PROCESS_CPUTIME_ID := 2
  CLOCK_THREAD_CPUTIME_ID := 3
  PROCESS_CLOCK := -6
  THREAD_CLOCK := -2
  SIGTIMER := 32
  SIGALRM := 14
  SI_TIMER := -2
  EINVAL := 22
  kernel_timer_to_timerid := fun k => k
  pthread_to_timerid := fun th => (th / 2 : Nat) - 9223372036854775808
  thread_ne_none := by decide
  thread_ne_signal := by decide
  thread_ne_thread_id := by decide
  clocks_ne := by decide

/-- The fields of `struct sigevent` that the code reads or writes.  `tid` is
`_sigev_un._pad[0]`, the target thread of `SIGEV_THREAD_ID`; a function pointer is the
number of the function it points to; `sigev_notify_attributes` is `none` for `NULL`. -/
structure Sigevent where
  sigev_value : Int
  sigev_signo : Int
  sigev_notify : Int
  sigev_notify_function : Nat
  sigev_notify_attributes : Option Nat
  tid : Int
deriving DecidableEq, Repr

/-- What the kernel answers to the `timer_create` system call: the id of the new timer,
or an error number. -/
inductive KernelReply where
  | ok (ktimerid : Int)
  | error (errno : Int)
deriving DecidableEq, Repr

/-- Modelled from the spec: the macro `INLINE_SYSCALL_CALL` of `sysdep.h` is not part of
the source tree.  The kernel timer primitive either hands out an integer id or refuses
the request; the source compares the value of the macro with `< 0` and with `== -1`, so
a refusal is the value -1, with `errno` set, and a success is the value 0. -/
def INLINE_SYSCALL_CALL (r : KernelReply) : Int :=
  match r with
  | .ok _ => 0
  | .error _ => -1

/-- The content of the local `ktimerid` after the system call: the id the kernel wrote,
when it wrote one. -/
def ktimerid_of (r : KernelReply) : Int :=
  match r with
  | .ok k => k
  | .error _ => 0

/-- The value of `errno` after `INLINE_SYSCALL_CALL`: set when the call fails. -/
def errno_after (r : KernelReply) (errno : Int) : Int :=
  match r with
  | .ok _ => errno
  | .error e => e

/-- The answers of the environment to a call of `___timer_create`: the return values of
`__pthread_attr_setsigmask_internal` and `__pthread_create`, the thread descriptor `th`
that `__pthread_create` writes with its kernel thread id `tid` and the initial content
`timerid0` of its state word, and the kernel's answer to `timer_create`. -/
structure Env where
  attr_setsigmask : Int
  pthread_create : Int
  th : Nat
  tid : Int
  timerid0 : Int
  sys_timer_create : Int → Sigevent → KernelReply

/-! ## The helper thread -/

/-- The control states of the helper thread: blocked in `__pthread_barrier_wait`, blocked
in `__sigwaitinfo`, inside `thrfunc (sival)`, and finished. -/
inductive Pc where
  | AwaitingBinding
  | Waiting
  | Dispatching
  | Terminated
deriving DecidableEq, Repr

/-- A registered cleanup handler: the one of the loop, or one that the callback
registered with `pthread_cleanup_push`. -/
inductive Handler where
  | timer_helper_thread_cleanup
  | user (id : Nat)
deriving DecidableEq, Repr

/-- What the helper thread does that others can observe. -/
inductive Obs where
  | callback (fn : Nat) (sival : Int)
  | timer_delete (ktimerid : Int)
  | user_cleanup (id : Nat)
deriving DecidableEq, Repr

/-- The helper thread: its control state, the callback and value it captured from
`args->evp`, its state word `self->timerid`, its stack of cleanup handlers (innermost
first) and the log of what it has done. -/
structure Worker where
  pc : Pc
  thrfunc : Nat
  sival : Int
  timerid : Int
  handlers : List Handler
  log : List Obs
deriving DecidableEq, Repr

/-- The events that drive the helper thread. -/
inductive Event where
  | barrier
  | sigwaitinfo (ret : Int) (si_code : Int)
  | store (v : Int)
  | push (id : Nat)
  | pop (execute : Bool)
  | ret
  | cancel
deriving DecidableEq, Repr

/-- The function `timer_helper_thread_cleanup`: the system call `timer_delete` on
`self->timerid & INT_MAX`, its result dropped, then the load of `self->timerid` and the
store of `timerid | INT_MIN`.  No other thread writes the word between the two reads. -/
def timer_helper_thread_cleanup (w : Worker) : Worker :=
  let w1 := { w with log := w.log ++ [Obs.timer_delete (int_and w.timerid INT_MAX)] }
  let timerid := w1.timerid
  { w1 with timerid := int_or timerid INT_MIN }

/-- The first lines of `timer_helper_thread`: the new thread copies the callback and
its value out of `args->evp` and blocks in `__pthread_barrier_wait`. -/
def spawn (evp : Sigevent) (timerid0 : Int) : Worker :=
  { pc := Pc.AwaitingBinding
    thrfunc := evp.sigev_notify_function
    sival := evp.sigev_value
    timerid := timerid0
    handlers := []
    log := [] }

/-- The end of an iteration of the loop of `timer_helper_thread`: when
`self->timerid < 0` the loop is left, `timer_helper_thread_cleanup (NULL)` is called and
the thread returns; otherwise the thread blocks in `__sigwaitinfo` again. -/
def check_stop (w : Worker) : Worker :=
  if w.timerid < 0 then
    { timer_helper_thread_cleanup w with pc := Pc.Terminated }
  else
    { w with pc := Pc.Waiting }

/-- Running one cleanup handler. -/
def run_handler (w : Worker) (h : Handler) : Worker :=
  match h with
  | Handler.timer_helper_thread_cleanup => timer_helper_thread_cleanup w
  | Handler.user id => { w with log := w.log ++ [Obs.user_cleanup id] }

/-- Acting on a cancellation request: the registered handlers run, innermost first,
and the thread ends. -/
def unwind (w : Worker) : Worker :=
  { w.handlers.foldl run_handler w with handlers := [], pc := Pc.Terminated }

/-- One step of the helper thread.  `creatorAtBarrier` tells whether the creating thread
has called `__pthread_barrier_wait` on the two-party barrier.  An event that cannot
happen in the current control state leaves the thread as it is.

* `barrier`: the barrier opens and the thread enters the loop.
* `sigwaitinfo ret si_code`: `__sigwaitinfo` returns; a negative result is retried;
  when `si.si_code == SI_TIMER` the cleanup region is opened and the callback starts;
  otherwise the stop flag is tested.
* `ret`: the callback returns, `__libc_cleanup_region_end (0)` removes the handler
  without running it, and the stop flag is tested.
* `push`, `pop`: the callback registers or removes a handler of its own.
* `store v`: another thread writes the state word.
* `cancel`: a cancellation request is acted upon, in `__sigwaitinfo` or inside the
  callback. -/
def step (abi : Abi) (creatorAtBarrier : Bool) (w : Worker) (e : Event) : Worker :=
  match w.pc, e with
  | Pc.Terminated, _ => w
  | _, Event.store v => { w with timerid := v }
  | Pc.AwaitingBinding, Event.barrier =>
    if creatorAtBarrier then { w with pc := Pc.Waiting } else w
  | Pc.Waiting, Event.sigwaitinfo ret si_code =>
    if ret < 0 then w
    else if si_code = abi.SI_TIMER then
      { w with
        pc := Pc.Dispatching
        handlers := Handler.timer_helper_thread_cleanup :: w.handlers
        log := w.log ++ [Obs.callback w.thrfunc w.sival] }
    else check_stop w
  | Pc.Dispatching, Event.push id => { w with handlers := Handler.user id :: w.handlers }
  | Pc.Dispatching, Event.pop execute =>
    match w.handlers with
    | Handler.user id :: hs =>
      if execute then { w with handlers := hs, log := w.log ++ [Obs.user_cleanup id] }
      else { w with handlers := hs }
    | _ => w
  | Pc.Dispatching, Event.ret =>
    match w.handlers with
    | Handler.timer_helper_thread_cleanup :: hs => check_stop { w with handlers := hs }
    | _ => w
  | Pc.Waiting, Event.cancel => unwind w
  | Pc.Dispatching, Event.cancel => unwind w
  | _, _ => w

/-- The helper thread after a sequence of events. -/
def run (abi : Abi) (creatorAtBarrier : Bool) (evs : List Event) (w : Worker) : Worker :=
  evs.foldl (step abi creatorAtBarrier) w

/-- How often the callback has been invoked. -/
def callbacks (w : Worker) : Nat :=
  w.log.countP (fun o => match o with | Obs.callback _ _ => true | _ => false)

/-- How often the system call `timer_delete` has been issued, which is how often
`timer_helper_thread_cleanup` has run. -/
def teardowns (w : Worker) : Nat :=
  w.log.countP (fun o => match o with | Obs.timer_delete _ => true | _ => false)

/-! ## The creating thread -/

/-- The calls and stores of the creating thread, in program order. -/
inductive Effect where
  | cancel_install_handler
  | attr_copy (src : Nat)
  | attr_init
  | attr_setdetachstate
  | attr_setsigmask
  | barrier_init (count : Nat)
  | pthread_create
  | timer_create (clockid : Int) (kevp : Sigevent)
  | store_timerid (th : Nat) (ktimerid : Int)
  | barrier_wait
  | write_timerid (v : Int)
  | attr_destroy
deriving DecidableEq, Repr

/-- The state of the process around a call of `___timer_create`: `errno`, the content of
`*timerid` (`none` as long as the call has not written it), the calls made so far, the
helper thread if one was spawned, and whether the creating thread has arrived at the
barrier. -/
structure Proc where
  errno : Int
  out : Option Int
  trace : List Effect
  worker : Option Worker
  creatorAtBarrier : Bool
deriving DecidableEq, Repr

/-- The state before the call. -/
def Proc.start (errno : Int) : Proc :=
  { errno := errno, out := none, trace := [], worker := none, creatorAtBarrier := false }

/-- Appends a call to the trace. -/
def Proc.emit (s : Proc) (e : Effect) : Proc :=
  { s with trace := s.trace ++ [e] }

/-- The label `out` of `timer_create_sigev_thread`: `attr` is a local, so `&attr` differs
from `evp->sigev_notify_attributes` and `__pthread_attr_destroy` is called; then `ret`
is returned. -/
def timer_create_sigev_thread_out (ret : Int) (s : Proc) : Int × Proc :=
  (ret, s.emit Effect.attr_destroy)

/-- The function `timer_create_sigev_thread`.  `timerid` is the address held by the
pointer of that name. -/
def timer_create_sigev_thread (abi : Abi) (env : Env) (syscall_clockid : Int)
    (evp : Sigevent) (timerid : Nat) (s : Proc) : Int × Proc :=
  -- int ret = -1;  (assigned again before it is read)
  let s := s.emit Effect.cancel_install_handler
  let s := match evp.sigev_notify_attributes with
    | some a => s.emit (Effect.attr_copy a)
    | none => s.emit Effect.attr_init
  let s := s.emit Effect.attr_setdetachstate
  let s := s.emit Effect.attr_setsigmask
  let ret := env.attr_setsigmask
  if ret ≠ 0 then timer_create_sigev_thread_out ret s
  else
    let s := { s.emit (Effect.barrier_init 2) with creatorAtBarrier := false }
    let s := s.emit Effect.pthread_create
    let ret := env.pthread_create
    if ret ≠ 0 then timer_create_sigev_thread_out ret { s with errno := ret }
    else
      let s := { s with worker := some (spawn evp env.timerid0) }
      let kevp : Sigevent :=
        { sigev_value := 0
          sigev_signo := abi.SIGTIMER
          sigev_notify := abi.SIGEV_THREAD_ID
          sigev_notify_function := 0
          sigev_notify_attributes := none
          tid := env.tid }
      let reply := env.sys_timer_create syscall_clockid kevp
      let s := { s.emit (Effect.timer_create syscall_clockid kevp) with
                 errno := errno_after reply s.errno }
      if INLINE_SYSCALL_CALL reply < 0 then timer_create_sigev_thread_out ret s
      else
        let ktimerid := ktimerid_of reply
        let s := { s.emit (Effect.store_timerid env.th ktimerid) with
                   worker := s.worker.map (fun (w : Worker) => { w with timerid := ktimerid }) }
        let s := { s.emit Effect.barrier_wait with creatorAtBarrier := true }
        let s := if 0 ≤ timerid then
            { s.emit (Effect.write_timerid (abi.pthread_to_timerid env.th)) with
              out := some (abi.pthread_to_timerid env.th) }
          else s
        let ret := 0
        timer_create_sigev_thread_out ret s

/-- The clock id handed to the kernel by `___timer_create`. -/
def syscall_clockid (abi : Abi) (clock_id : Int) : Int :=
  if clock_id = abi.CLOCK_PROCESS_CPUTIME_ID then abi.PROCESS_CLOCK
  else if clock_id = abi.CLOCK_THREAD_CPUTIME_ID then abi.THREAD_CLOCK
  else clock_id

/-- The function `___timer_create`.  `evp` is `none` for `NULL`. -/
def ___timer_create (abi : Abi) (env : Env) (clock_id : Int) (evp : Option Sigevent)
    (timerid : Nat) (s : Proc) : Int × Proc :=
  let syscall_clockid := syscall_clockid abi clock_id
  let notify := match evp with
    | some e => e.sigev_notify
    | none => abi.SIGEV_SIGNAL
  if notify = abi.SIGEV_NONE ∨ notify = abi.SIGEV_SIGNAL ∨ notify = abi.SIGEV_THREAD_ID then
    let evp : Sigevent := match evp with
      | some e => e
      | none =>
        { sigev_value := 0
          sigev_signo := abi.SIGALRM
          sigev_notify := abi.SIGEV_SIGNAL
          sigev_notify_function := 0
          sigev_notify_attributes := none
          tid := 0 }
    let reply := env.sys_timer_create syscall_clockid evp
    let s := { s.emit (Effect.timer_create syscall_clockid evp) with
               errno := errno_after reply s.errno }
    if INLINE_SYSCALL_CALL reply = -1 then (-1, s)
    else
      let ktimerid := ktimerid_of reply
      let s := { s.emit (Effect.write_timerid (abi.kernel_timer_to_timerid ktimerid)) with
                 out := some (abi.kernel_timer_to_timerid ktimerid) }
      (0, s)
  else if notify = abi.SIGEV_THREAD then
    match evp with
    | some e =>
      let r := timer_create_sigev_thread abi env syscall_clockid e timerid s
      if r.1 < 0 then (-1, r.2) else (0, r.2)
    -- not reached: a `NULL` `evp` is dispatched as `SIGEV_SIGNAL`, which is not `SIGEV_THREAD`
    | none => (-1, s)
  else
    (-1, { s with errno := abi.EINVAL })

/-- The number of kernel `timer_create` calls in a trace. -/
def kernel_calls (t : List Effect) : Nat :=
  t.countP (fun e => match e with | Effect.timer_create _ _ => true | _ => false)

/-- The number of `__pthread_create` calls in a trace. -/
def spawn_calls (t : List Effect) : Nat :=
  t.countP (fun e => match e with | Effect.pthread_create => true | _ => false)

/-! ## The test `tst-cancel31` -/

/-- The request of `do_test`: `sev.sigev_notify = SIGEV_THREAD`,
`sev.sigev_notify_function = &thread_handler` (function number 1), everything else 0. -/
def tst_cancel31_sev (abi : Abi) : Sigevent :=
  { sigev_value := 0
    sigev_signo := 0
    sigev_notify := abi.SIGEV_THREAD
    sigev_notify_function := 1
    sigev_notify_attributes := none
    tid := 0 }

/-- The number of the handler `cl` of the test. -/
def cl : Nat := 0

/-- What happens to the helper thread in `do_test`: the barrier opens, the timer expires,
`thread_handler` registers `cl` and spins, and the cancellation of `xpthread_cancel`
is acted upon. -/
def tst_cancel31_events (abi : Abi) : List Event :=
  [Event.barrier, Event.sigwaitinfo abi.SIGTIMER abi.SI_TIMER, Event.push cl, Event.cancel]

/-- The variable `cancelled` of the test: `cl` sets it. -/
def cancelled (w : Worker) : Bool :=
  decide (Obs.user_cleanup cl ∈ w.log)

/-! ## Concrete environments -/

/-- An environment in which every call succeeds and the kernel hands out the timer 5. -/
def all_succeed : Env :=
  { attr_setsigmask := 0
    pthread_create := 0
    th := 4096
    tid := 77
    timerid0 := 0
    sys_timer_create := fun _ _ => KernelReply.ok 5 }

/-- An environment in which the thread is spawned and the kernel then refuses the timer
with `EAGAIN` (11). -/
def kernel_refuses : Env :=
  { all_succeed with sys_timer_create := fun _ _ => KernelReply.error 11 }

/-- An environment in which `__pthread_create` fails with `EAGAIN` (11). -/
def spawn_fails : Env :=
  { all_succeed with pthread_create := 11 }

/-- The invariant of the helper thread: outside the callback no cleanup handler is
registered; inside it the handlers are those of the callback on top of the one of the
loop; and the teardown has not run as long as the thread lives. -/
def WellFormed (w : Worker) : Prop :=
  match w.pc with
  | Pc.AwaitingBinding => w.handlers = [] ∧ teardowns w = 0
  | Pc.Waiting => w.handlers = [] ∧ teardowns w = 0
  | Pc.Dispatching =>
    (∃ us : List Nat, w.handlers = us.map Handler.user ++ [Handler.timer_helper_thread_cleanup])
      ∧ teardowns w = 0
  | Pc.Terminated => True

end TimerCreate

namespace Dliopen

/-- The answers of the dynamic loader to `__dliopen`: the namespace id that
`GLRO(dl_zzz_get_new_inner_nsid)()` generates, the address that `__dlopen_with_args`
returns for a file, a mode, a namespace id and a caller (0 is `NULL`), and the link map
that `_dl_find_dso_for_object` finds for the caller. -/
structure Loader where
  dl_zzz_get_new_inner_nsid : Int
  dlopen_with_args : String → Int → Int → Nat → Nat
  dl_find_dso_for_object : Nat → Nat

/-- The calls and stores of `__dliopen`, in program order. -/
inductive Effect where
  | get_new_inner_nsid
  | dlopen_with_args (file : String) (mode : Int) (nsid : Int) (caller : Nat)
  | find_dso_for_object (caller : Nat)
  | store_iparent (map : Nat) (parent : Nat)
deriving DecidableEq, Repr

/-- How a call of `__dliopen` ends: it returns a pointer, or it stores through the null
pointer. -/
inductive Outcome where
  | returned (result : Nat)
  | null_store
deriving DecidableEq, Repr

/-- The function `__dliopen`: the outcome and the calls and stores made. -/
def __dliopen (ld : Loader) (file : String) (mode : Int) (caller : Nat) :
    Outcome × List Effect :=
  let new_id := ld.dl_zzz_get_new_inner_nsid
  let result := ld.dlopen_with_args file mode new_id caller
  let parent := ld.dl_find_dso_for_object caller
  let calls := [Effect.get_new_inner_nsid, Effect.dlopen_with_args file mode new_id caller,
    Effect.find_dso_for_object caller]
  -- result -> iparent = parent;
  if result = 0 then (Outcome.null_store, calls)
  else (Outcome.returned result, calls ++ [Effect.store_iparent result parent])

/-- A loader that cannot load the file: `__dlopen_with_args` returns `NULL`. -/
def failing_loader : Loader :=
  { dl_zzz_get_new_inner_nsid := 1
    dlopen_with_args := fun _ _ _ _ => 0
    dl_find_dso_for_object := fun _ => 4096 }

end Dliopen

namespace TimerCreate

/-! ## Bit operations on `int` -/

theorem top_bit_or (b : Nat) (h : b < 2147483648) : 2147483648 ||| b = 2147483648 + b := by
  have e := @Nat.mul_add_lt_is_or 31 b (by omega) 1
  have e2 : (2 : Nat) ^ 31 * 1 = 2147483648 := by norm_num
  rw [e2] at e
  exact e.symm

theorem or_top_bit (n : Nat) (h : n < 4294967296) :
    n ||| 2147483648 = if n < 2147483648 then n + 2147483648 else n := by
  rw [Nat.or_comm]
  by_cases h1 : n < 2147483648
  · rw [if_pos h1, top_bit_or n h1]; omega
  · rw [if_neg h1]
    have e := top_bit_or (n - 2147483648) (by omega)
    have e2 : 2147483648 + (n - 2147483648) = n := by omega
    rw [e2] at e
    conv_lhs => rw [← e]
    rw [← Nat.or_assoc, Nat.or_self]
    exact e

/-- The low 31 bits of an `int`: `w & INT_MAX` is `w` modulo `2^31`. -/
theorem int_and_INT_MAX (w : Int) : int_and w INT_MAX = w % 2147483648 := by
  unfold int_and ofBits
  have e : toBits INT_MAX = 2 ^ 31 - 1 := by decide
  rw [e, Nat.and_pow_two_sub_one_eq_mod]
  unfold toBits
  have h : (w % 4294967296).toNat % 2 ^ 31 < 2147483648 := by omega
  rw [if_pos h]
  omega

/-- Setting the top bit of an `int`: `w | INT_MIN` is the low 31 bits of `w` minus
`2^31`. -/
theorem int_or_INT_MIN (w : Int) : int_or w INT_MIN = w % 2147483648 - 2147483648 := by
  unfold int_or ofBits
  have e : toBits INT_MIN = 2147483648 := by decide
  have hb : toBits w < 4294967296 := by unfold toBits; omega
  rw [e, or_top_bit _ hb]
  unfold toBits at *
  by_cases h1 : (w % 4294967296).toNat < 2147483648
  · rw [if_pos h1]
    have h2 : ¬ ((w % 4294967296).toNat + 2147483648 < 2147483648) := by omega
    rw [if_neg h2]; omega
  · rw [if_neg h1, if_neg h1]; omega

/-! ## The teardown -/

/-- C9: for every value of the state word `self->timerid`, `timer_helper_thread_cleanup`
issues exactly the system call `timer_delete` on `timerid & INT_MAX` and stores
`timerid | INT_MIN`, touching nothing else.  Hence the stored word has the stop flag set
(it is negative), keeps the low 31 bits, and is a fixed point of a second run; for a word
in the range of `int` the stored word is the word itself when it was negative and the
word plus `INT_MIN` otherwise; and for a kernel id `k` in `0 .. INT_MAX` the first and
the second run both delete exactly `k`. -/
theorem timer_helper_thread_cleanup_spec (w : Worker) :
    timer_helper_thread_cleanup w =
        { w with
          log := w.log ++ [Obs.timer_delete (int_and w.timerid INT_MAX)]
          timerid := int_or w.timerid INT_MIN }
      ∧ (timer_helper_thread_cleanup (timer_helper_thread_cleanup w)).timerid
          = (timer_helper_thread_cleanup w).timerid
      ∧ (timer_helper_thread_cleanup w).timerid < 0
      ∧ int_and (timer_helper_thread_cleanup w).timerid INT_MAX = int_and w.timerid INT_MAX
      ∧ (INT_MIN ≤ w.timerid → w.timerid ≤ INT_MAX →
          (timer_helper_thread_cleanup w).timerid
            = if w.timerid < 0 then w.timerid else w.timerid + INT_MIN)
      ∧ (∀ k : Int, 0 ≤ k → k ≤ INT_MAX → w.timerid = k →
          (timer_helper_thread_cleanup w).log = w.log ++ [Obs.timer_delete k]
          ∧ (timer_helper_thread_cleanup (timer_helper_thread_cleanup w)).log
              = w.log ++ [Obs.timer_delete k, Obs.timer_delete k]) := by
  refine ⟨rfl, ?_, ?_, ?_, ?_, ?_⟩
  · simp only [timer_helper_thread_cleanup, int_or_INT_MIN]
    omega
  · simp only [timer_helper_thread_cleanup, int_or_INT_MIN]
    omega
  · simp only [timer_helper_thread_cleanup, int_or_INT_MIN, int_and_INT_MAX]
    omega
  · intro h0 h1
    simp only [timer_helper_thread_cleanup, int_or_INT_MIN]
    unfold INT_MIN INT_MAX at *
    split <;> omega
  · intro k h0 h1 hk
    simp only [timer_helper_thread_cleanup, int_or_INT_MIN, int_and_INT_MAX, hk]
    unfold INT_MAX at h1
    have e1 : k % 2147483648 = k := by omega
    have e2 : (k % 2147483648 - 2147483648) % 2147483648 = k := by omega
    simp [e1, e2]

/-- C9 at the state word 5: both runs delete the kernel timer 5 and the word stays
`5 | INT_MIN`. -/
theorem timer_helper_thread_cleanup_spec_witness :
    (timer_helper_thread_cleanup
        (timer_helper_thread_cleanup { spawn (tst_cancel31_sev linux) 5 with pc := Pc.Waiting })).log
      = [Obs.timer_delete 5, Obs.timer_delete 5]
    ∧ (timer_helper_thread_cleanup { spawn (tst_cancel31_sev linux) 5 with pc := Pc.Waiting }).timerid
      = -2147483643 :=
  ⟨((timer_helper_thread_cleanup_spec
      { spawn (tst_cancel31_sev linux) 5 with pc := Pc.Waiting }).2.2.2.2.2
      5 (by decide) (by decide) rfl).2,
   by decide⟩

end TimerCreate

namespace TimerCreate

/-! ## The dispatcher -/

/-- C3: for a request with a non-`NULL` `evp` whose `sigev_notify` is none of
`SIGEV_NONE`, `SIGEV_SIGNAL`, `SIGEV_THREAD_ID`, `SIGEV_THREAD`, `___timer_create`
returns -1 and changes nothing but `errno`, which becomes `EINVAL`: no call is added to
the trace (no kernel `timer_create`, no `__pthread_create`), no helper thread exists that
did not before, and `*timerid` is not written. -/
theorem timer_create_unknown_notify (abi : Abi) (env : Env) (clock_id : Int)
    (evp : Sigevent) (timerid : Nat) (s : Proc)
    (h1 : evp.sigev_notify ≠ abi.SIGEV_NONE) (h2 : evp.sigev_notify ≠ abi.SIGEV_SIGNAL)
    (h3 : evp.sigev_notify ≠ abi.SIGEV_THREAD_ID) (h4 : evp.sigev_notify ≠ abi.SIGEV_THREAD) :
    ___timer_create abi env clock_id (some evp) timerid s = (-1, { s with errno := abi.EINVAL })
      ∧ (___timer_create abi env clock_id (some evp) timerid s).2.trace = s.trace
      ∧ kernel_calls (___timer_create abi env clock_id (some evp) timerid s).2.trace
          = kernel_calls s.trace
      ∧ spawn_calls (___timer_create abi env clock_id (some evp) timerid s).2.trace
          = spawn_calls s.trace
      ∧ (___timer_create abi env clock_id (some evp) timerid s).2.worker = s.worker
      ∧ (___timer_create abi env clock_id (some evp) timerid s).2.out = s.out := by
  have e : ___timer_create abi env clock_id (some evp) timerid s
      = (-1, { s with errno := abi.EINVAL }) := by
    simp [___timer_create, h1, h2, h3, h4]
  rw [e]
  simp

/-- C3 on Linux with `sigev_notify = 7`. -/
theorem timer_create_unknown_notify_witness :
    ___timer_create linux all_succeed 0 (some { tst_cancel31_sev linux with sigev_notify := 7 })
        8 (Proc.start 0)
      = (-1, { Proc.start 0 with errno := 22 }) :=
  (timer_create_unknown_notify linux all_succeed 0
    { tst_cancel31_sev linux with sigev_notify := 7 } 8 (Proc.start 0)
    (by decide) (by decide) (by decide) (by decide)).1

/-- C7: for a request with a non-`NULL` `evp` whose mode is `SIGEV_NONE`, `SIGEV_SIGNAL`
or `SIGEV_THREAD_ID`, `___timer_create` makes exactly one kernel `timer_create` call,
with the caller's `sigevent` as it is and the translated clock id, and no
`__pthread_create` call; when the kernel hands out the id `k` it returns 0 and
`*timerid` is `kernel_timer_to_timerid k`; when the kernel refuses it returns -1 and
`*timerid` is not written.  The translation sends `CLOCK_PROCESS_CPUTIME_ID` to
`PROCESS_CLOCK`, `CLOCK_THREAD_CPUTIME_ID` to `THREAD_CLOCK` and every other clock id to
itself. -/
theorem timer_create_passthrough (abi : Abi) (env : Env) (clock_id : Int)
    (evp : Sigevent) (timerid : Nat) (s : Proc)
    (h : evp.sigev_notify = abi.SIGEV_NONE ∨ evp.sigev_notify = abi.SIGEV_SIGNAL
      ∨ evp.sigev_notify = abi.SIGEV_THREAD_ID) :
    (∀ k, env.sys_timer_create (syscall_clockid abi clock_id) evp = KernelReply.ok k →
        ___timer_create abi env clock_id (some evp) timerid s
          = (0, { s with
                  out := some (abi.kernel_timer_to_timerid k)
                  trace := s.trace ++ [Effect.timer_create (syscall_clockid abi clock_id) evp,
                    Effect.write_timerid (abi.kernel_timer_to_timerid k)] }))
      ∧ (∀ e, env.sys_timer_create (syscall_clockid abi clock_id) evp = KernelReply.error e →
        ___timer_create abi env clock_id (some evp) timerid s
          = (-1, { s with
                   errno := e
                   trace := s.trace ++ [Effect.timer_create (syscall_clockid abi clock_id) evp] }))
      ∧ kernel_calls (___timer_create abi env clock_id (some evp) timerid s).2.trace
          = kernel_calls s.trace + 1
      ∧ spawn_calls (___timer_create abi env clock_id (some evp) timerid s).2.trace
          = spawn_calls s.trace
      ∧ (___timer_create abi env clock_id (some evp) timerid s).2.worker = s.worker
      ∧ syscall_clockid abi abi.CLOCK_PROCESS_CPUTIME_ID = abi.PROCESS_CLOCK
      ∧ syscall_clockid abi abi.CLOCK_THREAD_CPUTIME_ID = abi.THREAD_CLOCK
      ∧ (clock_id ≠ abi.CLOCK_PROCESS_CPUTIME_ID → clock_id ≠ abi.CLOCK_THREAD_CPUTIME_ID →
          syscall_clockid abi clock_id = clock_id) := by
  have hk : ∀ k, env.sys_timer_create (syscall_clockid abi clock_id) evp = KernelReply.ok k →
      ___timer_create abi env clock_id (some evp) timerid s
        = (0, { s with
                out := some (abi.kernel_timer_to_timerid k)
                trace := s.trace ++ [Effect.timer_create (syscall_clockid abi clock_id) evp,
                  Effect.write_timerid (abi.kernel_timer_to_timerid k)] }) := by
    intro k hk
    simp [___timer_create, h, hk, INLINE_SYSCALL_CALL, ktimerid_of, errno_after, Proc.emit]
  have he : ∀ e, env.sys_timer_create (syscall_clockid abi clock_id) evp = KernelReply.error e →
      ___timer_create abi env clock_id (some evp) timerid s
        = (-1, { s with
                 errno := e
                 trace := s.trace ++ [Effect.timer_create (syscall_clockid abi clock_id) evp] }) := by
    intro e he
    simp [___timer_create, h, he, INLINE_SYSCALL_CALL, errno_after, Proc.emit]
  refine ⟨hk, he, ?_, ?_, ?_, ?_, ?_, ?_⟩
  · cases hr : env.sys_timer_create (syscall_clockid abi clock_id) evp with
    | ok k => rw [hk k hr]; simp [kernel_calls, List.countP_append]
    | error e => rw [he e hr]; simp [kernel_calls, List.countP_append]
  · cases hr : env.sys_timer_create (syscall_clockid abi clock_id) evp with
    | ok k => rw [hk k hr]; simp [spawn_calls, List.countP_append]
    | error e => rw [he e hr]; simp [spawn_calls, List.countP_append]
  · cases hr : env.sys_timer_create (syscall_clockid abi clock_id) evp with
    | ok k => rw [hk k hr]
    | error e => rw [he e hr]
  · simp [syscall_clockid]
  · have := abi.clocks_ne
    simp [syscall_clockid, Ne.symm this]
  · intro a b
    simp [syscall_clockid, a, b]

/-- C7 on Linux: a `SIGEV_NONE` request on `CLOCK_PROCESS_CPUTIME_ID` for which the
kernel hands out the timer 5. -/
theorem timer_create_passthrough_witness :
    ___timer_create linux all_succeed 2 (some { tst_cancel31_sev linux with sigev_notify := 1 })
        8 (Proc.start 0)
      = (0, { Proc.start 0 with
              out := some 5
              trace := [Effect.timer_create (-6) { tst_cancel31_sev linux with sigev_notify := 1 },
                Effect.write_timerid 5] }) :=
  (timer_create_passthrough linux all_succeed 2
    { tst_cancel31_sev linux with sigev_notify := 1 } 8 (Proc.start 0)
    (Or.inl (by decide))).1 5 (by decide)

end TimerCreate

namespace TimerCreate

/-! ## The callback-thread path -/

/-- C8: for a `SIGEV_THREAD` request for which the attribute setup and
`__pthread_create` return 0 and the kernel hands out the id `k` (in `0 .. INT_MAX`),
`___timer_create` returns 0.  The calls are, in this order: the attribute setup, the
barrier, `__pthread_create`, the kernel `timer_create` with notification
`SIGEV_THREAD_ID`, signal `SIGTIMER` and the helper thread's kernel thread id, the store
of `k` into the state word of the helper thread, the creator's `__pthread_barrier_wait`,
and the write of `pthread_to_timerid th` to `*timerid`.  The helper thread is still
blocked at the barrier with the state word `k`, whose stop flag is clear and whose low
bits are `k`; it cannot pass the barrier before the creator has arrived, and when it
passes it enters its wait loop with the state word `k`. -/
theorem timer_create_sigev_thread_success (abi : Abi) (env : Env) (clock_id : Int)
    (evp : Sigevent) (timerid : Nat) (s : Proc) (k : Int)
    (hn : evp.sigev_notify = abi.SIGEV_THREAD)
    (hm : env.attr_setsigmask = 0) (hc : env.pthread_create = 0)
    (hk : env.sys_timer_create (syscall_clockid abi clock_id)
      { sigev_value := 0
        sigev_signo := abi.SIGTIMER
        sigev_notify := abi.SIGEV_THREAD_ID
        sigev_notify_function := 0
        sigev_notify_attributes := none
        tid := env.tid } = KernelReply.ok k)
    (h0 : 0 ≤ k) (h1 : k ≤ INT_MAX) :
    ___timer_create abi env clock_id (some evp) timerid s
        = (0, { errno := s.errno
                out := some (abi.pthread_to_timerid env.th)
                trace := s.trace ++
                  [Effect.cancel_install_handler,
                   (match evp.sigev_notify_attributes with
                    | some a => Effect.attr_copy a
                    | none => Effect.attr_init),
                   Effect.attr_setdetachstate,
                   Effect.attr_setsigmask,
                   Effect.barrier_init 2,
                   Effect.pthread_create,
                   Effect.timer_create (syscall_clockid abi clock_id)
                     { sigev_value := 0
                       sigev_signo := abi.SIGTIMER
                       sigev_notify := abi.SIGEV_THREAD_ID
                       sigev_notify_function := 0
                       sigev_notify_attributes := none
                       tid := env.tid },
                   Effect.store_timerid env.th k,
                   Effect.barrier_wait,
                   Effect.write_timerid (abi.pthread_to_timerid env.th),
                   Effect.attr_destroy]
                worker := some { spawn evp env.timerid0 with timerid := k }
                creatorAtBarrier := true })
      ∧ ¬ (k < 0)
      ∧ int_and k INT_MAX = k
      ∧ step abi false (spawn evp env.timerid0) Event.barrier = spawn evp env.timerid0
      ∧ step abi true { spawn evp env.timerid0 with timerid := k } Event.barrier
          = { spawn evp env.timerid0 with timerid := k, pc := Pc.Waiting } := by
  refine ⟨?_, by omega, ?_, ?_, ?_⟩
  · have n1 := abi.thread_ne_none
    have n2 := abi.thread_ne_signal
    have n3 := abi.thread_ne_thread_id
    cases ha : evp.sigev_notify_attributes <;>
      simp [___timer_create, timer_create_sigev_thread, timer_create_sigev_thread_out, hn, hm,
        hc, hk, ha, n1, n2, n3, INLINE_SYSCALL_CALL, ktimerid_of, errno_after, Proc.emit]
  · rw [int_and_INT_MAX]
    unfold INT_MAX at h1
    omega
  · simp [step, spawn]
  · simp [step, spawn]

/-- C8 in the test `tst-cancel31`: `timer_create (CLOCK_REALTIME, &sev, &timerid)`
returns 0 and leaves the helper thread at the barrier with the state word 5. -/
theorem timer_create_sigev_thread_success_witness :
    (___timer_create linux all_succeed 0 (some (tst_cancel31_sev linux)) 8 (Proc.start 0)).1 = 0
      ∧ (___timer_create linux all_succeed 0 (some (tst_cancel31_sev linux)) 8 (Proc.start 0)).2.worker
          = some { spawn (tst_cancel31_sev linux) 0 with timerid := 5 } :=
  ⟨congrArg Prod.fst
      (timer_create_sigev_thread_success linux all_succeed 0 (tst_cancel31_sev linux) 8
        (Proc.start 0) 5 rfl rfl rfl rfl (by decide) (by decide)).1,
    by decide⟩

/-- What `___timer_create` does for every `SIGEV_THREAD` request when the helper thread
is spawned and the kernel then refuses the timer with the error `e`: it returns 0,
`*timerid` is not written, and the helper thread stays behind at the barrier, at which
the creator never arrives. -/
theorem timer_create_sigev_thread_refused (abi : Abi) (env : Env) (clock_id : Int)
    (evp : Sigevent) (timerid : Nat) (s : Proc) (e : Int)
    (hn : evp.sigev_notify = abi.SIGEV_THREAD)
    (hm : env.attr_setsigmask = 0) (hc : env.pthread_create = 0)
    (hk : env.sys_timer_create (syscall_clockid abi clock_id)
      { sigev_value := 0
        sigev_signo := abi.SIGTIMER
        sigev_notify := abi.SIGEV_THREAD_ID
        sigev_notify_function := 0
        sigev_notify_attributes := none
        tid := env.tid } = KernelReply.error e) :
    (___timer_create abi env clock_id (some evp) timerid s).1 = 0
      ∧ (___timer_create abi env clock_id (some evp) timerid s).2.errno = e
      ∧ (___timer_create abi env clock_id (some evp) timerid s).2.out = s.out
      ∧ (___timer_create abi env clock_id (some evp) timerid s).2.worker
          = some (spawn evp env.timerid0)
      ∧ (___timer_create abi env clock_id (some evp) timerid s).2.creatorAtBarrier = false := by
  have n1 := abi.thread_ne_none
  have n2 := abi.thread_ne_signal
  have n3 := abi.thread_ne_thread_id
  cases ha : evp.sigev_notify_attributes <;>
    simp [___timer_create, timer_create_sigev_thread, timer_create_sigev_thread_out, hn, hm,
      hc, hk, ha, n1, n2, n3, INLINE_SYSCALL_CALL, errno_after, Proc.emit]

/-- What `___timer_create` does for every `SIGEV_THREAD` request when
`__pthread_create` fails with a positive error code `e`: it returns 0, with
`errno = e`, without a kernel `timer_create` call and without writing `*timerid`. -/
theorem timer_create_sigev_thread_spawn_failed (abi : Abi) (env : Env) (clock_id : Int)
    (evp : Sigevent) (timerid : Nat) (s : Proc)
    (hn : evp.sigev_notify = abi.SIGEV_THREAD)
    (hm : env.attr_setsigmask = 0) (hc : 0 < env.pthread_create) :
    (___timer_create abi env clock_id (some evp) timerid s).1 = 0
      ∧ (___timer_create abi env clock_id (some evp) timerid s).2.errno = env.pthread_create
      ∧ (___timer_create abi env clock_id (some evp) timerid s).2.out = s.out
      ∧ kernel_calls (___timer_create abi env clock_id (some evp) timerid s).2.trace
          = kernel_calls s.trace
      ∧ (___timer_create abi env clock_id (some evp) timerid s).2.worker = s.worker := by
  have n1 := abi.thread_ne_none
  have n2 := abi.thread_ne_signal
  have n3 := abi.thread_ne_thread_id
  have hc1 : env.pthread_create ≠ 0 := by omega
  have hc2 : ¬ (env.pthread_create < 0) := by omega
  cases ha : evp.sigev_notify_attributes <;>
    simp [___timer_create, timer_create_sigev_thread, timer_create_sigev_thread_out, hn, hm,
      hc1, hc2, ha, n1, n2, n3, Proc.emit, kernel_calls, List.countP_append]

/-- C1, the code at a failing input: the request of `tst-cancel31` when the helper
thread is spawned and the kernel refuses the timer with `EAGAIN`.  `___timer_create`
returns 0, not -1; `*timerid` is not written; the helper thread is left blocked at the
barrier. -/
theorem timer_create_kernel_refusal_returns_zero :
    ___timer_create linux kernel_refuses 0 (some (tst_cancel31_sev linux)) 8 (Proc.start 0)
      = (0, { errno := 11
              out := none
              trace :=
                [Effect.cancel_install_handler, Effect.attr_init, Effect.attr_setdetachstate,
                 Effect.attr_setsigmask, Effect.barrier_init 2, Effect.pthread_create,
                 Effect.timer_create 0
                   { sigev_value := 0
                     sigev_signo := 32
                     sigev_notify := 4
                     sigev_notify_function := 0
                     sigev_notify_attributes := none
                     tid := 77 },
                 Effect.attr_destroy]
              worker := some (spawn (tst_cancel31_sev linux) 0)
              creatorAtBarrier := false }) := by
  decide

/-- C2, the code at a failing input: the request of `tst-cancel31` when
`__pthread_create` fails with `EAGAIN`.  `___timer_create` returns 0, not -1, with
`errno = 11`; it makes no kernel call and does not write `*timerid`. -/
theorem timer_create_spawn_failure_returns_zero :
    ___timer_create linux spawn_fails 0 (some (tst_cancel31_sev linux)) 8 (Proc.start 0)
      = (0, { errno := 11
              out := none
              trace :=
                [Effect.cancel_install_handler, Effect.attr_init, Effect.attr_setdetachstate,
                 Effect.attr_setsigmask, Effect.barrier_init 2, Effect.pthread_create,
                 Effect.attr_destroy]
              worker := none
              creatorAtBarrier := false }) := by
  decide

end TimerCreate

namespace TimerCreate

/-! ## The loop of the helper thread -/

theorem step_terminated (abi : Abi) (b : Bool) (w : Worker) (e : Event)
    (h : w.pc = Pc.Terminated) : step abi b w e = w := by
  unfold step
  simp [h]

/-- A finished helper thread does nothing any more. -/
theorem run_terminated (abi : Abi) (b : Bool) (evs : List Event) (w : Worker)
    (h : w.pc = Pc.Terminated) : run abi b evs w = w := by
  induction evs with
  | nil => rfl
  | cons e es ih =>
    show run abi b es (step abi b w e) = w
    rw [step_terminated abi b w e h]
    exact ih

/-- As long as the creating thread has not arrived at the barrier, a helper thread that
is blocked there stays there and invokes nothing, whatever happens. -/
theorem blocked_at_barrier (abi : Abi) (evs : List Event) (w : Worker)
    (hp : w.pc = Pc.AwaitingBinding) :
    (run abi false evs w).pc = Pc.AwaitingBinding ∧ (run abi false evs w).log = w.log := by
  induction evs generalizing w with
  | nil => exact ⟨hp, rfl⟩
  | cons e es ih =>
    show (run abi false es (step abi false w e)).pc = Pc.AwaitingBinding
      ∧ (run abi false es (step abi false w e)).log = w.log
    have hs : (step abi false w e).pc = Pc.AwaitingBinding ∧ (step abi false w e).log = w.log := by
      cases e <;> simp [step, hp]
    obtain ⟨h1, h2⟩ := ih (step abi false w e) hs.1
    exact ⟨h1, h2.trans hs.2⟩

/-- A helper thread whose creator never arrives at the barrier never invokes the
callback. -/
theorem no_callback_without_release (abi : Abi) (evp : Sigevent) (t0 : Int)
    (evs : List Event) : callbacks (run abi false evs (spawn evp t0)) = 0 := by
  have h := (blocked_at_barrier abi evs (spawn evp t0) rfl).2
  unfold callbacks
  rw [h]
  rfl

theorem callbacks_cleanup (w : Worker) :
    callbacks (timer_helper_thread_cleanup w) = callbacks w := by
  simp [callbacks, timer_helper_thread_cleanup, List.countP_append]

theorem callbacks_check_stop (w : Worker) : callbacks (check_stop w) = callbacks w := by
  unfold check_stop
  split
  · exact callbacks_cleanup w
  · rfl

theorem callbacks_run_handler (w : Worker) (h : Handler) :
    callbacks (run_handler w h) = callbacks w := by
  cases h with
  | timer_helper_thread_cleanup => exact callbacks_cleanup w
  | user id => simp [run_handler, callbacks, List.countP_append]

theorem callbacks_foldl (hs : List Handler) (w : Worker) :
    callbacks (hs.foldl run_handler w) = callbacks w := by
  induction hs generalizing w with
  | nil => rfl
  | cons h hs ih =>
    show callbacks (hs.foldl run_handler (run_handler w h)) = callbacks w
    rw [ih, callbacks_run_handler]

theorem callbacks_unwind (w : Worker) : callbacks (unwind w) = callbacks w := by
  have := callbacks_foldl w.handlers w
  simpa [unwind, callbacks] using this

/-- The events of a callback's own handlers only add to the log. -/
theorem foldl_user_handlers (us : List Nat) (w : Worker) :
    (us.map Handler.user).foldl run_handler w
      = { w with log := w.log ++ us.map Obs.user_cleanup } := by
  induction us generalizing w with
  | nil => simp
  | cons u us ih =>
    show (us.map Handler.user).foldl run_handler (run_handler w (Handler.user u)) = _
    rw [ih]
    simp [run_handler]

end TimerCreate

namespace TimerCreate

theorem wf_idle (w : Worker) (hp : w.pc = Pc.AwaitingBinding ∨ w.pc = Pc.Waiting)
    (hh : w.handlers = []) (ht : teardowns w = 0) : WellFormed w := by
  rcases hp with hp | hp <;> simp only [WellFormed, hp] <;> exact ⟨hh, ht⟩

theorem wf_dispatching (w : Worker) (us : List Nat) (hp : w.pc = Pc.Dispatching)
    (hh : w.handlers = us.map Handler.user ++ [Handler.timer_helper_thread_cleanup])
    (ht : teardowns w = 0) : WellFormed w := by
  simp only [WellFormed, hp]
  exact ⟨⟨us, hh⟩, ht⟩

theorem wf_terminated (w : Worker) (hp : w.pc = Pc.Terminated) : WellFormed w := by
  simp only [WellFormed, hp]

theorem wellFormed_spawn (evp : Sigevent) (t0 : Int) : WellFormed (spawn evp t0) :=
  wf_idle _ (Or.inl rfl) rfl rfl

theorem wellFormed_check_stop (w : Worker) (h1 : w.handlers = []) (h2 : teardowns w = 0) :
    WellFormed (check_stop w) := by
  unfold check_stop
  split
  · exact wf_terminated _ rfl
  · exact wf_idle _ (Or.inr rfl) h1 h2

theorem wellFormed_step (abi : Abi) (b : Bool) (w : Worker) (e : Event) (h : WellFormed w) :
    WellFormed (step abi b w e) := by
  cases hpc : w.pc with
  | Terminated => rw [step_terminated abi b w e hpc]; exact h
  | AwaitingBinding =>
    simp only [WellFormed, hpc] at h
    cases e with
    | barrier =>
      simp only [step, hpc]
      cases b
      · exact wf_idle _ (Or.inl hpc) h.1 h.2
      · exact wf_idle _ (Or.inr rfl) h.1 h.2
    | store v =>
      simp only [step, hpc]
      exact wf_idle _ (Or.inl rfl) h.1 h.2
    | _ =>
      simp only [step, hpc]
      exact wf_idle _ (Or.inl hpc) h.1 h.2
  | Waiting =>
    simp only [WellFormed, hpc] at h
    cases e with
    | sigwaitinfo ret code =>
      simp only [step, hpc]
      split
      · exact wf_idle _ (Or.inr hpc) h.1 h.2
      · split
        · refine wf_dispatching _ [] rfl ?_ ?_
          · simp [h.1]
          · have := h.2
            simp only [teardowns] at this ⊢
            simp [List.countP_append, this]
        · exact wellFormed_check_stop w h.1 h.2
    | cancel =>
      simp only [step, hpc]
      exact wf_terminated _ rfl
    | store v =>
      simp only [step, hpc]
      exact wf_idle _ (Or.inr rfl) h.1 h.2
    | _ =>
      simp only [step, hpc]
      exact wf_idle _ (Or.inr hpc) h.1 h.2
  | Dispatching =>
    simp only [WellFormed, hpc] at h
    obtain ⟨⟨us, hus⟩, ht⟩ := h
    cases e with
    | push id =>
      simp only [step, hpc]
      refine wf_dispatching _ (id :: us) rfl ?_ ht
      simp [hus]
    | pop execute =>
      simp only [step, hpc]
      cases us with
      | nil =>
        simp only [hus, List.map_nil, List.nil_append]
        exact wf_dispatching _ [] hpc hus ht
      | cons u us =>
        simp only [hus, List.map_cons, List.cons_append]
        cases execute
        · exact wf_dispatching _ us rfl rfl ht
        · refine wf_dispatching _ us rfl rfl ?_
          simp only [teardowns] at ht ⊢
          simp [List.countP_append, ht]
    | ret =>
      simp only [step, hpc]
      cases us with
      | nil =>
        simp only [hus, List.map_nil, List.nil_append]
        exact wellFormed_check_stop _ rfl ht
      | cons u us =>
        simp only [hus, List.map_cons, List.cons_append]
        exact wf_dispatching _ (u :: us) hpc hus ht
    | cancel =>
      simp only [step, hpc]
      exact wf_terminated _ rfl
    | store v =>
      simp only [step, hpc]
      exact wf_dispatching _ us rfl hus ht
    | barrier =>
      simp only [step, hpc]
      exact wf_dispatching _ us hpc hus ht
    | sigwaitinfo ret code =>
      simp only [step, hpc]
      exact wf_dispatching _ us hpc hus ht

theorem wellFormed_run (abi : Abi) (b : Bool) (evs : List Event) (w : Worker)
    (h : WellFormed w) : WellFormed (run abi b evs w) := by
  induction evs generalizing w with
  | nil => exact h
  | cons e es ih => exact ih (step abi b w e) (wellFormed_step abi b w e h)

end TimerCreate

namespace TimerCreate

/-! ## The stop flag -/

/-- C4 as stated fails: in `tst-cancel31`'s timer with the kernel id 5, another thread
sets the stop flag while the helper thread is blocked in `__sigwaitinfo`; the wake that
follows is a timer expiration, and the callback is invoked although the stop flag is
set. -/
theorem callback_dispatched_with_stop_flag_set :
    (run linux true [Event.barrier, Event.store (int_or 5 INT_MIN)]
        (spawn (tst_cancel31_sev linux) 5)).pc = Pc.Waiting
      ∧ (run linux true [Event.barrier, Event.store (int_or 5 INT_MIN)]
        (spawn (tst_cancel31_sev linux) 5)).timerid < 0
      ∧ callbacks (run linux true [Event.barrier, Event.store (int_or 5 INT_MIN)]
        (spawn (tst_cancel31_sev linux) 5)) = 0
      ∧ run linux true
          [Event.barrier, Event.store (int_or 5 INT_MIN), Event.sigwaitinfo 32 linux.SI_TIMER]
          (spawn (tst_cancel31_sev linux) 5)
        = { pc := Pc.Dispatching
            thrfunc := 1
            sival := 0
            timerid := -2147483643
            handlers := [Handler.timer_helper_thread_cleanup]
            log := [Obs.callback 1 0] } := by
  decide

/-- C4 as amended: the loop tests the stop flag after the test of `si.si_code`, not
before it.  (1) On a wake of `__sigwaitinfo` the callback is invoked exactly when the call
succeeded with `si_code == SI_TIMER`, whatever the state word holds.  (2) No other event
invokes the callback.  (3) On a successful wake that is not a timer expiration and finds
the stop flag set, the thread tears down (it deletes the kernel timer held in the low
bits of the state word and stores the word with the stop flag set) and ends, without
invoking the callback.  (4) When the callback returns and the stop flag is set, the
cleanup region is closed without running its handler, and the thread tears down in the
same way and ends.  (5) A thread that has ended never invokes the callback again.
(6) A successful wake with `si_code == SI_TIMER` opens the cleanup region and starts the
callback, also when the stop flag is set; a failed wait is retried.  (7) With the stop
flag clear, the same two tests send the thread back into the wait, without a teardown. -/
theorem stop_flag_checked_after_dispatch (abi : Abi) (b : Bool) (w : Worker) :
    (w.pc = Pc.Waiting → ∀ ret code : Int,
        callbacks (step abi b w (Event.sigwaitinfo ret code))
          = callbacks w + (if 0 ≤ ret ∧ code = abi.SI_TIMER then 1 else 0))
      ∧ (∀ e : Event, (∀ ret code : Int, e ≠ Event.sigwaitinfo ret code) →
          callbacks (step abi b w e) = callbacks w)
      ∧ (w.pc = Pc.Waiting → w.timerid < 0 → ∀ ret code : Int, 0 ≤ ret → code ≠ abi.SI_TIMER →
          (step abi b w (Event.sigwaitinfo ret code)).pc = Pc.Terminated
          ∧ callbacks (step abi b w (Event.sigwaitinfo ret code)) = callbacks w
          ∧ step abi b w (Event.sigwaitinfo ret code)
            = { w with
                pc := Pc.Terminated
                log := w.log ++ [Obs.timer_delete (int_and w.timerid INT_MAX)]
                timerid := int_or w.timerid INT_MIN }
          ∧ teardowns (step abi b w (Event.sigwaitinfo ret code)) = teardowns w + 1)
      ∧ (w.pc = Pc.Dispatching → w.timerid < 0 →
          ∀ hs, w.handlers = Handler.timer_helper_thread_cleanup :: hs →
          (step abi b w Event.ret).pc = Pc.Terminated
          ∧ callbacks (step abi b w Event.ret) = callbacks w
          ∧ step abi b w Event.ret
            = { w with
                pc := Pc.Terminated
                handlers := hs
                log := w.log ++ [Obs.timer_delete (int_and w.timerid INT_MAX)]
                timerid := int_or w.timerid INT_MIN }
          ∧ teardowns (step abi b w Event.ret) = teardowns w + 1)
      ∧ (w.pc = Pc.Terminated → ∀ evs : List Event,
          callbacks (run abi b evs w) = callbacks w)
      ∧ (w.pc = Pc.Waiting → ∀ ret code : Int,
          (ret < 0 → step abi b w (Event.sigwaitinfo ret code) = w)
          ∧ (0 ≤ ret → code = abi.SI_TIMER →
              step abi b w (Event.sigwaitinfo ret code)
                = { w with
                    pc := Pc.Dispatching
                    handlers := Handler.timer_helper_thread_cleanup :: w.handlers
                    log := w.log ++ [Obs.callback w.thrfunc w.sival] }))
      ∧ (¬ w.timerid < 0 →
          (w.pc = Pc.Waiting → ∀ ret code : Int, 0 ≤ ret → code ≠ abi.SI_TIMER →
            step abi b w (Event.sigwaitinfo ret code) = w)
          ∧ (w.pc = Pc.Dispatching →
            ∀ hs, w.handlers = Handler.timer_helper_thread_cleanup :: hs →
            step abi b w Event.ret = { w with pc := Pc.Waiting, handlers := hs })) := by
  refine ⟨?_, ?_, ?_, ?_, ?_, ?_, ?_⟩
  · intro hpc ret code
    simp only [step, hpc]
    by_cases hr : ret < 0
    · have hr2 : ¬ (0 ≤ ret ∧ code = abi.SI_TIMER) := by omega
      simp [hr, hr2]
    · by_cases hcode : code = abi.SI_TIMER
      · have hr2 : 0 ≤ ret ∧ code = abi.SI_TIMER := ⟨by omega, hcode⟩
        rw [if_neg hr, if_pos hcode, if_pos hr2]
        simp [callbacks, List.countP_append]
      · have hr2 : ¬ (0 ≤ ret ∧ code = abi.SI_TIMER) := fun h => hcode h.2
        rw [if_neg hr, if_neg hcode, if_neg hr2]
        exact callbacks_check_stop w
  · intro e he
    cases hpc : w.pc with
    | Terminated => rw [step_terminated abi b w e hpc]
    | AwaitingBinding =>
      cases e with
      | barrier => simp only [step, hpc]; cases b <;> rfl
      | sigwaitinfo ret code => exact absurd rfl (he ret code)
      | _ => simp only [step, hpc] <;> rfl
    | Waiting =>
      cases e with
      | sigwaitinfo ret code => exact absurd rfl (he ret code)
      | cancel => simp only [step, hpc]; exact callbacks_unwind w
      | _ => simp only [step, hpc] <;> rfl
    | Dispatching =>
      cases e with
      | sigwaitinfo ret code => exact absurd rfl (he ret code)
      | cancel => simp only [step, hpc]; exact callbacks_unwind w
      | pop execute =>
        simp only [step, hpc]
        split
        · cases execute
          · rfl
          · simp [callbacks, List.countP_append]
        · rfl
      | ret =>
        simp only [step, hpc]
        split
        · exact callbacks_check_stop _
        · rfl
      | _ => simp only [step, hpc] <;> rfl
  · intro hpc hneg ret code hret hcode
    have hr : ¬ ret < 0 := by omega
    have hstep : step abi b w (Event.sigwaitinfo ret code)
        = { w with
            pc := Pc.Terminated
            log := w.log ++ [Obs.timer_delete (int_and w.timerid INT_MAX)]
            timerid := int_or w.timerid INT_MIN } := by
      simp only [step, hpc, if_neg hr, if_neg hcode]
      simp [check_stop, hneg, timer_helper_thread_cleanup]
    refine ⟨?_, ?_, hstep, ?_⟩
    · rw [hstep]
    · rw [hstep]
      simp [callbacks, List.countP_append]
    · rw [hstep]
      simp [teardowns, List.countP_append]
  · intro hpc hneg hs hhs
    have hstep : step abi b w Event.ret
        = { w with
            pc := Pc.Terminated
            handlers := hs
            log := w.log ++ [Obs.timer_delete (int_and w.timerid INT_MAX)]
            timerid := int_or w.timerid INT_MIN } := by
      simp only [step, hpc, hhs]
      simp [check_stop, hneg, timer_helper_thread_cleanup]
    refine ⟨?_, ?_, hstep, ?_⟩
    · rw [hstep]
    · rw [hstep]
      simp [callbacks, List.countP_append]
    · rw [hstep]
      simp [teardowns, List.countP_append]
  · intro hpc evs
    rw [run_terminated abi b evs w hpc]
  · intro hpc ret code
    refine ⟨?_, ?_⟩
    · intro hr
      simp only [step, hpc, if_pos hr]
    · intro hr hcode
      have hr2 : ¬ ret < 0 := by omega
      simp only [step, hpc, if_neg hr2, if_pos hcode]
  · intro hclear
    refine ⟨?_, ?_⟩
    · intro hpc ret code hret hcode
      have hr : ¬ ret < 0 := by omega
      simp only [step, hpc, if_neg hr, if_neg hcode]
      simp only [check_stop, if_neg hclear]
      rw [← hpc]
    · intro hpc hs hhs
      simp only [step, hpc, hhs]
      simp [check_stop, hclear]

/-- C4 as amended, on Linux: with the stop flag set on the state word of the kernel
timer 5, a wake by a signal that is not a timer expiration makes the thread delete the
kernel timer 5, keep the stop flag, and end, without a callback. -/
theorem stop_flag_checked_after_dispatch_witness :
    (step linux true { spawn (tst_cancel31_sev linux) (-2147483643) with pc := Pc.Waiting }
        (Event.sigwaitinfo 32 (-6))).pc = Pc.Terminated
      ∧ callbacks (step linux true
          { spawn (tst_cancel31_sev linux) (-2147483643) with pc := Pc.Waiting }
          (Event.sigwaitinfo 32 (-6))) = 0
      ∧ step linux true { spawn (tst_cancel31_sev linux) (-2147483643) with pc := Pc.Waiting }
          (Event.sigwaitinfo 32 (-6))
        = { pc := Pc.Terminated
            thrfunc := 1
            sival := 0
            timerid := -2147483643
            handlers := []
            log := [Obs.timer_delete 5] } :=
  ⟨((stop_flag_checked_after_dispatch linux true
      { spawn (tst_cancel31_sev linux) (-2147483643) with pc := Pc.Waiting }).2.2.1
      rfl (by decide) 32 (-6) (by decide) (by decide)).1,
   ((stop_flag_checked_after_dispatch linux true
      { spawn (tst_cancel31_sev linux) (-2147483643) with pc := Pc.Waiting }).2.2.1
      rfl (by decide) 32 (-6) (by decide) (by decide)).2.1,
   by decide⟩

end TimerCreate

namespace TimerCreate

/-! ## Cancellation -/

/-- C5: let a helper thread, started with any request and any state word and driven by
any sequence of events, be inside its callback, and let a cancellation request be acted
upon there.  Then the teardown had not run before; the handlers that the callback
registered run, innermost first, and after them `timer_helper_thread_cleanup` runs, once:
the kernel timer held in the low bits of the state word is deleted and the stop flag is
set; the thread has then ended, and whatever happens afterwards changes nothing: the
teardown call at the end of the loop is not executed. -/
theorem cancel_inside_callback (abi : Abi) (b : Bool) (evp : Sigevent) (t0 : Int)
    (evs : List Event) (h : (run abi b evs (spawn evp t0)).pc = Pc.Dispatching) :
    teardowns (run abi b evs (spawn evp t0)) = 0
      ∧ (∃ us : List Nat,
          (run abi b evs (spawn evp t0)).handlers
            = us.map Handler.user ++ [Handler.timer_helper_thread_cleanup]
          ∧ (step abi b (run abi b evs (spawn evp t0)) Event.cancel).log
            = (run abi b evs (spawn evp t0)).log ++ us.map Obs.user_cleanup
              ++ [Obs.timer_delete (int_and (run abi b evs (spawn evp t0)).timerid INT_MAX)])
      ∧ teardowns (step abi b (run abi b evs (spawn evp t0)) Event.cancel) = 1
      ∧ (step abi b (run abi b evs (spawn evp t0)) Event.cancel).timerid
          = int_or (run abi b evs (spawn evp t0)).timerid INT_MIN
      ∧ (step abi b (run abi b evs (spawn evp t0)) Event.cancel).timerid < 0
      ∧ (step abi b (run abi b evs (spawn evp t0)) Event.cancel).pc = Pc.Terminated
      ∧ (∀ id, Handler.user id ∈ (run abi b evs (spawn evp t0)).handlers →
          Obs.user_cleanup id ∈ (step abi b (run abi b evs (spawn evp t0)) Event.cancel).log)
      ∧ (∀ evs2 : List Event,
          run abi b evs2 (step abi b (run abi b evs (spawn evp t0)) Event.cancel)
            = step abi b (run abi b evs (spawn evp t0)) Event.cancel) := by
  have wf := wellFormed_run abi b evs (spawn evp t0) (wellFormed_spawn evp t0)
  generalize run abi b evs (spawn evp t0) = w at h wf ⊢
  simp only [WellFormed, h] at wf
  obtain ⟨⟨us, hus⟩, ht⟩ := wf
  have hstep : step abi b w Event.cancel
      = { w with
          log := w.log ++ us.map Obs.user_cleanup
            ++ [Obs.timer_delete (int_and w.timerid INT_MAX)]
          timerid := int_or w.timerid INT_MIN
          handlers := []
          pc := Pc.Terminated } := by
    simp only [step, h, unwind, hus, List.foldl_append, foldl_user_handlers]
    simp [run_handler, timer_helper_thread_cleanup]
  refine ⟨ht, ⟨us, hus, ?_⟩, ?_, ?_, ?_, ?_, ?_, ?_⟩
  · rw [hstep]
  · rw [hstep]
    simp only [teardowns] at ht ⊢
    simp [List.countP_append, ht, List.countP_eq_zero]
  · rw [hstep]
  · rw [hstep]
    simp only [int_or_INT_MIN]
    omega
  · rw [hstep]
  · intro id hid
    rw [hstep]
    rw [hus] at hid
    simp at hid
    simp [hid]
  · intro evs2
    exact run_terminated abi b evs2 _ (by rw [hstep])

/-- C5 in `tst-cancel31`: the timer with the kernel id 5 expires, `thread_handler`
registers `cl` and spins, the thread is cancelled.  `cl` runs, so `cancelled` is true;
then the kernel timer 5 is deleted, once, and the stop flag is set. -/
theorem cancel_inside_callback_witness :
    teardowns (run linux true (tst_cancel31_events linux) (spawn (tst_cancel31_sev linux) 5)) = 1
      ∧ cancelled (run linux true (tst_cancel31_events linux) (spawn (tst_cancel31_sev linux) 5))
          = true
      ∧ run linux true (tst_cancel31_events linux) (spawn (tst_cancel31_sev linux) 5)
          = { pc := Pc.Terminated
              thrfunc := 1
              sival := 0
              timerid := -2147483643
              handlers := []
              log := [Obs.callback 1 0, Obs.user_cleanup cl, Obs.timer_delete 5] } :=
  ⟨(cancel_inside_callback linux true (tst_cancel31_sev linux) 5
      [Event.barrier, Event.sigwaitinfo 32 linux.SI_TIMER, Event.push cl] (by decide)).2.2.1,
    by decide, by decide⟩

/-- C6, the code at a failing input: the timer of `tst-cancel31` with the kernel id 5
expires once, the callback returns, and the helper thread is cancelled while it is
blocked in `__sigwaitinfo`.  No cleanup handler is registered there: the thread ends
without a `timer_delete` call and the state word is still 5, its stop flag clear. -/
theorem cancel_while_waiting_skips_teardown :
    (run linux true [Event.barrier, Event.sigwaitinfo 32 linux.SI_TIMER, Event.ret]
        (spawn (tst_cancel31_sev linux) 5)).pc = Pc.Waiting
      ∧ run linux true
          [Event.barrier, Event.sigwaitinfo 32 linux.SI_TIMER, Event.ret, Event.cancel]
          (spawn (tst_cancel31_sev linux) 5)
        = { pc := Pc.Terminated
            thrfunc := 1
            sival := 0
            timerid := 5
            handlers := []
            log := [Obs.callback 1 0] }
      ∧ teardowns (run linux true
          [Event.barrier, Event.sigwaitinfo 32 linux.SI_TIMER, Event.ret, Event.cancel]
          (spawn (tst_cancel31_sev linux) 5)) = 0 := by
  decide

/-- What the code does for every helper thread that is cancelled while it is blocked in
`__sigwaitinfo`: the thread ends, its log and its state word are as they were. -/
theorem cancel_while_waiting (abi : Abi) (b : Bool) (evp : Sigevent) (t0 : Int)
    (evs : List Event) (h : (run abi b evs (spawn evp t0)).pc = Pc.Waiting) :
    step abi b (run abi b evs (spawn evp t0)) Event.cancel
      = { run abi b evs (spawn evp t0) with pc := Pc.Terminated }
      ∧ teardowns (step abi b (run abi b evs (spawn evp t0)) Event.cancel) = 0 := by
  have wf := wellFormed_run abi b evs (spawn evp t0) (wellFormed_spawn evp t0)
  generalize run abi b evs (spawn evp t0) = w at h wf ⊢
  simp only [WellFormed, h] at wf
  have hstep : step abi b w Event.cancel = { w with pc := Pc.Terminated } := by
    simp only [step, h, unwind, wf.1, List.foldl_nil]
  rw [hstep]
  exact ⟨rfl, wf.2⟩

end TimerCreate

namespace Dliopen

/-- C10, the code at a failing input: when `__dlopen_with_args` returns `NULL`,
`__dliopen` does not return `NULL`; it stores `iparent` through the null pointer. -/
theorem dliopen_null_store :
    __dliopen failing_loader "libmissing.so" 2 8192
      = (Outcome.null_store,
          [Effect.get_new_inner_nsid, Effect.dlopen_with_args "libmissing.so" 2 1 8192,
           Effect.find_dso_for_object 8192]) := by
  decide

/-- What `__dliopen` does when the load succeeds: it returns the link map that
`__dlopen_with_args` returned, which was loaded under the namespace id that
`dl_zzz_get_new_inner_nsid` generated, after storing the caller's link map in its
`iparent`. -/
theorem dliopen_loaded (ld : Loader) (file : String) (mode : Int) (caller : Nat)
    (h : ld.dlopen_with_args file mode ld.dl_zzz_get_new_inner_nsid caller ≠ 0) :
    __dliopen ld file mode caller
      = (Outcome.returned (ld.dlopen_with_args file mode ld.dl_zzz_get_new_inner_nsid caller),
          [Effect.get_new_inner_nsid,
           Effect.dlopen_with_args file mode ld.dl_zzz_get_new_inner_nsid caller,
           Effect.find_dso_for_object caller,
           Effect.store_iparent
             (ld.dlopen_with_args file mode ld.dl_zzz_get_new_inner_nsid caller)
             (ld.dl_find_dso_for_object caller)]) := by
  simp [__dliopen, h]

end Dliopen
